import Mathlib

/-!
Verification of the pgoutput logical-replication decoder
(src/pg_replication/decoders.py) against its specification.

Shallow embedding conventions:
* A Python `bytes` buffer is a `List Nat` of byte values.
* `io.BytesIO` is a `Cursor`: the buffer plus a read position.
  `BytesIO.read n` returns at most `n` bytes (all remaining bytes when
  `n` is negative, as in CPython) and never fails.
* A Python `str` is represented by its UTF-8 byte sequence (`PyStr`).
  Strict UTF-8 encoding is injective, so byte-level equality coincides
  with Python string equality; `bytes.decode("utf-8")` becomes a
  validity check that keeps the bytes.
* A `datetime` instant is represented by its microsecond offset from the
  Unix epoch 1970-01-01T00:00:00Z (an `Int`).
* Decoders return `DRes`: `ok` a value, `err` a Python exception
  (distinguished by raise site), or `div` when the Python code does not
  terminate.  `div` is reachable only through `read_string`, whose
  `while` loop spins forever once `BytesIO.read(1)` starts returning
  `b""` at end of buffer.
-/

abbrev PyStr := List Nat

structure Cursor where
  data : List Nat
  pos : Nat
deriving DecidableEq, Repr

/-- Model of `io.BytesIO.read`: returns up to `n` bytes from the current
position (all remaining bytes when `n` is negative, as CPython does) and
advances the position by the number of bytes actually returned. -/
def bufRead (n : Int) (c : Cursor) : List Nat × Cursor :=
  let rem := c.data.drop c.pos
  let out := if n < 0 then rem else rem.take n.toNat
  (out, ⟨c.data, c.pos + out.length⟩)

/-- Model of `convert_bytes_to_int`: `int.from_bytes(bs, "big", signed=True)`.
The empty byte string yields 0. -/
def convert_bytes_to_int (bs : List Nat) : Int :=
  let u : Int := bs.foldl (fun a b => a * 256 + (b : Int)) 0
  match bs with
  | [] => 0
  | b :: _ => if 128 ≤ b then u - (2 : Int) ^ (8 * bs.length) else u

/-- One step of the strict UTF-8 acceptor: `need` continuation bytes are
still expected, the next one constrained to `[lo, hi]` (first continuation
byte carries the overlong/surrogate restriction, the rest are 0x80-0xBF). -/
def utf8Go : List Nat → Nat → Nat → Nat → Bool
  | [], need, _, _ => need == 0
  | b :: rest, 0, _, _ =>
      if b < 0x80 then utf8Go rest 0 0 0
      else if b < 0xC2 then false
      else if b < 0xE0 then utf8Go rest 1 0x80 0xBF
      else if b == 0xE0 then utf8Go rest 2 0xA0 0xBF
      else if b == 0xED then utf8Go rest 2 0x80 0x9F
      else if b < 0xF0 then utf8Go rest 2 0x80 0xBF
      else if b == 0xF0 then utf8Go rest 3 0x90 0xBF
      else if b < 0xF4 then utf8Go rest 3 0x80 0xBF
      else if b == 0xF4 then utf8Go rest 3 0x80 0x8F
      else false
  | b :: rest, need + 1, lo, hi =>
      if lo ≤ b ∧ b ≤ hi then utf8Go rest need 0x80 0xBF else false

/-- Strict UTF-8 validity, as enforced by Python `bytes.decode("utf-8")`:
rejects stray continuation bytes, overlong forms, surrogates and code
points above U+10FFFF. -/
def utf8Valid (bs : List Nat) : Bool := utf8Go bs 0 0 0

/-- Model of `convert_bytes_to_utf8`: `bytes.decode("utf-8")` validates and
(in our byte-level representation of `str`) keeps the bytes; invalid input
raises `UnicodeDecodeError` (`none` here). -/
def convert_bytes_to_utf8 (bs : List Nat) : Option PyStr :=
  if utf8Valid bs then some bs else none

/-- Exceptions the decoder can raise, distinguished by raise site.
`tagMismatch` is the per-decoder first-byte `ValueError`;
`expectedNewTupleMarker` is the `ValueError` in `Update.decode_buffer`
(carrying `buffer.tell()` and the byte found);
`invalidReplicaIdentityOrMessageTag` is the `ValueError` in
`Delete.decode_buffer`; `invalidEncoding` is `UnicodeDecodeError`;
`overflowError` is the `OverflowError` raised by `datetime` arithmetic
when the result leaves the representable range.
`unsupportedMessageType` exists only for the spec-modelled dispatcher. -/
inductive PyErr where
  | tagMismatch : PyStr → PyStr → PyErr
  | expectedNewTupleMarker : Nat → PyStr → PyErr
  | invalidReplicaIdentityOrMessageTag : PyStr → PyErr
  | invalidEncoding : PyErr
  | overflowError : PyErr
  | unsupportedMessageType : List Nat → PyErr
deriving DecidableEq, Repr

/-- Outcome of running a piece of the decoder: a value, a raised
exception, or non-termination of the Python code. -/
inductive DRes (α : Type) where
  | ok : α → DRes α
  | err : PyErr → DRes α
  | div : DRes α
deriving DecidableEq, Repr

/-- Sequencing of cursor-threading decoding steps; errors and divergence
propagate. -/
def bindR {α β : Type} (x : DRes (α × Cursor)) (f : α → Cursor → DRes (β × Cursor)) :
    DRes (β × Cursor) :=
  match x with
  | .ok (a, c) => f a c
  | .err e => .err e
  | .div => .div

/-- Drops the final cursor: the Python constructor returns the message
object, the internal `BytesIO` position is not part of the result. -/
def runMsg {α : Type} (x : DRes (α × Cursor)) : DRes α :=
  match x with
  | .ok (a, _) => .ok a
  | .err e => .err e
  | .div => .div

def dmap {α β : Type} (f : α → β) : DRes α → DRes β
  | .ok a => .ok (f a)
  | .err e => .err e
  | .div => .div

/-- Model of `PgoutputMessage.read_int8`. Note that a short read is NOT
detected: `convert_bytes_to_int` of fewer bytes (or none) succeeds. -/
def read_int8 (c : Cursor) : Int × Cursor :=
  let (bs, c2) := bufRead 1 c
  (convert_bytes_to_int bs, c2)

/-- Model of `PgoutputMessage.read_int16`. -/
def read_int16 (c : Cursor) : Int × Cursor :=
  let (bs, c2) := bufRead 2 c
  (convert_bytes_to_int bs, c2)

/-- Model of `PgoutputMessage.read_int32`. -/
def read_int32 (c : Cursor) : Int × Cursor :=
  let (bs, c2) := bufRead 4 c
  (convert_bytes_to_int bs, c2)

/-- Model of `PgoutputMessage.read_int64`. -/
def read_int64 (c : Cursor) : Int × Cursor :=
  let (bs, c2) := bufRead 8 c
  (convert_bytes_to_int bs, c2)

/-- Model of `PgoutputMessage.read_utf8`: read `n` bytes (possibly fewer
at end of buffer) and decode as UTF-8. -/
def read_utf8 (n : Int) (c : Cursor) : DRes (PyStr × Cursor) :=
  let (bs, c2) := bufRead n c
  match convert_bytes_to_utf8 bs with
  | some s => .ok (s, c2)
  | none => .err .invalidEncoding

/-- Microseconds from the Unix epoch to the PostgreSQL epoch
2000-01-01T00:00:00 UTC (946684800 seconds). -/
def pgEpochUs : Int := 946684800000000

/-- `datetime.min` (0001-01-01T00:00:00) in microseconds from the Unix
epoch: -719162 days. -/
def datetimeMinUs : Int := -62135596800000000

/-- `datetime.max` (9999-12-31T23:59:59.999999) in microseconds from the
Unix epoch: 2932896 days + 86399.999999 seconds. -/
def datetimeMaxUs : Int := 253402300799999999

/-- Model of `convert_pg_ts`: `datetime(2000,1,1, tzinfo=utc) +
timedelta(microseconds=us)`; raises `OverflowError` when the sum leaves
the `datetime` range. -/
def convert_pg_ts (us : Int) : DRes Int :=
  let v := pgEpochUs + us
  if datetimeMinUs ≤ v ∧ v ≤ datetimeMaxUs then .ok v else .err .overflowError

/-- Model of `PgoutputMessage.read_timestamp`. -/
def read_timestamp (c : Cursor) : DRes (Int × Cursor) :=
  let (v, c2) := read_int64 c
  match convert_pg_ts v with
  | .ok t => .ok (t, c2)
  | .err e => .err e
  | .div => .div

/-- Model of `PgoutputMessage.read_string`: the loop
`while (next_char := buffer.read(1)) != b"\x00"` appends bytes until a
zero byte.  If the remaining buffer holds a zero byte at relative index
`i`, the loop consumes `i + 1` bytes and decodes the first `i`.  If not,
`read(1)` returns `b""` forever at end of buffer, `b"" != b"\x00"` holds,
nothing is appended, and the loop never terminates: `div`. -/
def read_string (c : Cursor) : DRes (PyStr × Cursor) :=
  match (c.data.drop c.pos).findIdx? (fun b => b == 0) with
  | some i =>
      match convert_bytes_to_utf8 ((c.data.drop c.pos).take i) with
      | some s => .ok (s, ⟨c.data, c.pos + i + 1⟩)
      | none => .err .invalidEncoding
  | none => .div

/-- Model of the `ColumnData` NamedTuple. -/
structure ColumnData where
  col_data_category : Option PyStr
  col_data_length : Option Int
  col_data : Option PyStr
deriving DecidableEq, Repr

/-- Model of the `ColumnType` NamedTuple. -/
structure ColumnType where
  part_of_pkey : Int
  name : PyStr
  type_id : Int
  atttypmod : Int
deriving DecidableEq, Repr

/-- Model of the `TupleData` NamedTuple. -/
structure TupleData where
  n_columns : Int
  column_data : List ColumnData
deriving DecidableEq, Repr

/-- The `for column in range(n_columns)` loop body of `read_tuple_data`:
tag `'n'` (110) or `'u'` (117) appends a bare entry, `'t'` (116) reads an
int32 length then that many bytes as UTF-8; any other tag falls through
both branches and appends nothing (the Python code has no else branch). -/
def readColumns : Nat → Cursor → DRes (List ColumnData × Cursor)
  | 0, c => .ok ([], c)
  | n + 1, c =>
      bindR (read_utf8 1 c) fun cat c1 =>
        if cat = [110] ∨ cat = [117] then
          bindR (readColumns n c1) fun cols c2 =>
            .ok (⟨some cat, none, none⟩ :: cols, c2)
        else if cat = [116] then
          let (len, c2) := read_int32 c1
          bindR (read_utf8 len c2) fun v c3 =>
            bindR (readColumns n c3) fun cols c4 =>
              .ok (⟨some cat, some len, some v⟩ :: cols, c4)
        else
          readColumns n c1

/-- Model of `PgoutputMessage.read_tuple_data`: int16 column count, then
the per-column loop (`range` of a negative count is empty). -/
def read_tuple_data (c : Cursor) : DRes (TupleData × Cursor) :=
  let (n, c1) := read_int16 c
  bindR (readColumns n.toNat c1) fun cols c2 => .ok (⟨n, cols⟩, c2)

/-- Model of the `Begin` message object. -/
structure Begin where
  byte1 : PyStr
  lsn : Int
  commit_ts : Int
  tx_xid : Int
deriving DecidableEq, Repr

/-- Model of `Begin(buffer)`: read the first byte, require 'B' (66), then
lsn:int64, commit_ts:timestamp, tx_xid:int64. -/
def Begin.decode (buffer : List Nat) : DRes Begin :=
  runMsg (bindR (read_utf8 1 ⟨buffer, 0⟩) fun b1 c =>
    if b1 = [66] then
      let (lsn, c1) := read_int64 c
      bindR (read_timestamp c1) fun ts c2 =>
        let (xid, c3) := read_int64 c2
        .ok (⟨b1, lsn, ts, xid⟩, c3)
    else .err (.tagMismatch [66] b1))

/-- Model of the `Commit` message object. -/
structure Commit where
  byte1 : PyStr
  flags : Int
  lsn_commit : Int
  lsn : Int
  commit_ts : Int
deriving DecidableEq, Repr

/-- Model of `Commit(buffer)`: 'C' (67), flags:int8, lsn_commit:int64,
lsn:int64, commit_ts:timestamp. -/
def Commit.decode (buffer : List Nat) : DRes Commit :=
  runMsg (bindR (read_utf8 1 ⟨buffer, 0⟩) fun b1 c =>
    if b1 = [67] then
      let (flags, c1) := read_int8 c
      let (lc, c2) := read_int64 c1
      let (lsn, c3) := read_int64 c2
      bindR (read_timestamp c3) fun ts c4 =>
        .ok (⟨b1, flags, lc, lsn, ts⟩, c4)
    else .err (.tagMismatch [67] b1))

/-- Model of the `Relation` message object. -/
structure Relation where
  byte1 : PyStr
  relation_id : Int
  namespace_str : PyStr
  relation_name : PyStr
  replica_identity_setting : PyStr
  n_columns : Int
  columns : List ColumnType
deriving DecidableEq, Repr

/-- The per-column loop of `Relation.decode_buffer`: part_of_pkey:int8,
name:string, type_id:int32, atttypmod:int32. -/
def readRelColumns : Nat → Cursor → DRes (List ColumnType × Cursor)
  | 0, c => .ok ([], c)
  | n + 1, c =>
      let (pk, c1) := read_int8 c
      bindR (read_string c1) fun nm c2 =>
        let (tid, c3) := read_int32 c2
        let (tmod, c4) := read_int32 c3
        bindR (readRelColumns n c4) fun cols c5 =>
          .ok (⟨pk, nm, tid, tmod⟩ :: cols, c5)

/-- Model of `Relation(buffer)`: 'R' (82), relation_id:int32,
namespace:string, relation_name:string, replica identity:1 char,
n_columns:int16, then the column loop. -/
def Relation.decode (buffer : List Nat) : DRes Relation :=
  runMsg (bindR (read_utf8 1 ⟨buffer, 0⟩) fun b1 c =>
    if b1 = [82] then
      let (rid, c1) := read_int32 c
      bindR (read_string c1) fun ns c2 =>
        bindR (read_string c2) fun rn c3 =>
          bindR (read_utf8 1 c3) fun ri c4 =>
            let (n, c5) := read_int16 c4
            bindR (readRelColumns n.toNat c5) fun cols c6 =>
              .ok (⟨b1, rid, ns, rn, ri, n, cols⟩, c6)
    else .err (.tagMismatch [82] b1))

/-- Model of the `Insert` message object. -/
structure InsertMsg where
  byte1 : PyStr
  relation_id : Int
  new_tuple_byte : PyStr
  new_tuple : TupleData
deriving DecidableEq, Repr

/-- Model of `Insert(buffer)`: 'I' (73), relation_id:int32, then one byte
stored as `new_tuple_byte` WITHOUT any check that it is 'N', then one
TupleData (this mirrors the source exactly: `Insert.decode_buffer` never
validates `new_tuple_byte`). -/
def InsertMsg.decode (buffer : List Nat) : DRes InsertMsg :=
  runMsg (bindR (read_utf8 1 ⟨buffer, 0⟩) fun b1 c =>
    if b1 = [73] then
      let (rid, c1) := read_int32 c
      bindR (read_utf8 1 c1) fun ntb c2 =>
        bindR (read_tuple_data c2) fun nt c3 =>
          .ok (⟨b1, rid, ntb, nt⟩, c3)
    else .err (.tagMismatch [73] b1))

/-- Model of the `Update` message object. -/
structure Update where
  byte1 : PyStr
  relation_id : Int
  next_byte_identifier : PyStr
  optional_tuple_identifier : Option PyStr
  old_tuple : Option TupleData
  new_tuple_byte : PyStr
  new_tuple : TupleData
deriving DecidableEq, Repr

/-- Model of `Update(buffer)`: 'U' (85), relation_id:int32, one lookahead
byte; on 'K' (75) or 'O' (79) record it, read the old TupleData and one
more byte as `new_tuple_byte`; otherwise the lookahead byte itself is
`new_tuple_byte`.  If `new_tuple_byte` is not 'N' (78) raise the
`ValueError` carrying `buffer.tell()` and the byte found; otherwise read
the new TupleData. -/
def Update.decode (buffer : List Nat) : DRes Update :=
  runMsg (bindR (read_utf8 1 ⟨buffer, 0⟩) fun b1 c =>
    if b1 = [85] then
      let (rid, c1) := read_int32 c
      bindR (read_utf8 1 c1) fun nbi c2 =>
        if nbi = [75] ∨ nbi = [79] then
          bindR (read_tuple_data c2) fun old c3 =>
            bindR (read_utf8 1 c3) fun ntb c4 =>
              if ntb = [78] then
                bindR (read_tuple_data c4) fun nt c5 =>
                  .ok (⟨b1, rid, nbi, some nbi, some old, ntb, nt⟩, c5)
              else .err (.expectedNewTupleMarker c4.pos ntb)
        else
          if nbi = [78] then
            bindR (read_tuple_data c2) fun nt c3 =>
              .ok (⟨b1, rid, nbi, none, none, nbi, nt⟩, c3)
          else .err (.expectedNewTupleMarker c2.pos nbi)
    else .err (.tagMismatch [85] b1))

/-- Model of the `Delete` message object. -/
structure Delete where
  byte1 : PyStr
  relation_id : Int
  message_type : PyStr
  old_tuple : TupleData
deriving DecidableEq, Repr

/-- Model of `Delete(buffer)`: 'D' (68), relation_id:int32, one byte that
must be 'K' (75) or 'O' (79) -- otherwise the `ValueError` -- then one
TupleData as the old tuple. -/
def Delete.decode (buffer : List Nat) : DRes Delete :=
  runMsg (bindR (read_utf8 1 ⟨buffer, 0⟩) fun b1 c =>
    if b1 = [68] then
      let (rid, c1) := read_int32 c
      bindR (read_utf8 1 c1) fun mt c2 =>
        if mt = [75] ∨ mt = [79] then
          bindR (read_tuple_data c2) fun old c3 =>
            .ok (⟨b1, rid, mt, old⟩, c3)
        else .err (.invalidReplicaIdentityOrMessageTag mt)
    else .err (.tagMismatch [68] b1))

/-- Model of the `Truncate` message object. -/
structure Truncate where
  byte1 : PyStr
  number_of_relations : Int
  option_bits : Int
  relation_ids : List Int
deriving DecidableEq, Repr

/-- The `for relation in range(number_of_relations)` loop of
`Truncate.decode_buffer`: one int32 relation id per iteration. -/
def readRelationIds : Nat → Cursor → List Int × Cursor
  | 0, c => ([], c)
  | n + 1, c =>
      let (v, c1) := read_int32 c
      let (vs, c2) := readRelationIds n c1
      (v :: vs, c2)

/-- Model of `Truncate(buffer)`: 'T' (84), number_of_relations:int32,
option_bits:int8, then the relation-id loop (`range` of a negative count
is empty). -/
def Truncate.decode (buffer : List Nat) : DRes Truncate :=
  runMsg (bindR (read_utf8 1 ⟨buffer, 0⟩) fun b1 c =>
    if b1 = [84] then
      let (n, c1) := read_int32 c
      let (bits, c2) := read_int8 c1
      let (ids, c3) := readRelationIds n.toNat c2
      .ok (⟨b1, n, bits, ids⟩, c3)
    else .err (.tagMismatch [84] b1))

/-- Closed union of the decodable message kinds, for the dispatcher. -/
inductive PgMessage where
  | beginMsg : Begin → PgMessage
  | commitMsg : Commit → PgMessage
  | relationMsg : Relation → PgMessage
  | insertMsg : InsertMsg → PgMessage
  | updateMsg : Update → PgMessage
  | deleteMsg : Delete → PgMessage
  | truncateMsg : Truncate → PgMessage
deriving DecidableEq, Repr

/-- Modelled from the spec: the Dispatcher (spec sections 4.4 and 4.3) is
absent from the source; `Origin` and `PgType` are empty placeholder
classes and no caller-facing entry point exists in src.  Following the
spec words: read the leading tag byte, route 'B','C','R','I','U','D','T'
(66,67,82,73,85,68,84) to the matching message decoder, and surface any
other tag -- including Origin 'O' (79) and Type 'Y' (89) -- as
`DecodeError(UnsupportedMessageType)` instead of silently dropping the
message.  The decoders re-validate the tag themselves, so the dispatcher
hands them the whole buffer. -/
def decode_message (buf : List Nat) : DRes PgMessage :=
  match buf.head? with
  | some 66 => dmap PgMessage.beginMsg (Begin.decode buf)
  | some 67 => dmap PgMessage.commitMsg (Commit.decode buf)
  | some 82 => dmap PgMessage.relationMsg (Relation.decode buf)
  | some 73 => dmap PgMessage.insertMsg (InsertMsg.decode buf)
  | some 85 => dmap PgMessage.updateMsg (Update.decode buf)
  | some 68 => dmap PgMessage.deleteMsg (Delete.decode buf)
  | some 84 => dmap PgMessage.truncateMsg (Truncate.decode buf)
  | some b => .err (.unsupportedMessageType [b])
  | none => .err (.unsupportedMessageType [])

/-! ### Helper lemmas about exact reads -/

lemma bufRead_exact (data xs rest : List Nat) (pos : Nat) (n : Int)
    (h : data.drop pos = xs ++ rest) (hn : n = (xs.length : Int)) :
    bufRead n ⟨data, pos⟩ = (xs, ⟨data, pos + xs.length⟩) := by
  subst hn
  simp [bufRead, h, Int.not_lt.mpr (Int.natCast_nonneg xs.length)]

lemma drop_of_append (data xs rest : List Nat) (pos : Nat)
    (h : data.drop pos = xs ++ rest) :
    data.drop (pos + xs.length) = rest := by
  rw [← List.drop_drop, h, List.drop_left]

lemma utf8Valid_single (b : Nat) (hb : b < 128) : utf8Valid [b] = true := by
  simp [utf8Valid, utf8Go, hb]

lemma read_utf8_exact (data xs rest : List Nat) (pos : Nat) (n : Int)
    (h : data.drop pos = xs ++ rest) (hn : n = (xs.length : Int))
    (hv : utf8Valid xs = true) :
    read_utf8 n ⟨data, pos⟩ = .ok (xs, ⟨data, pos + xs.length⟩) := by
  unfold read_utf8 convert_bytes_to_utf8
  rw [bufRead_exact data xs rest pos n h hn]
  simp [hv]

lemma read_utf8_one (data rest : List Nat) (b pos : Nat)
    (h : data.drop pos = b :: rest) (hb : b < 128) :
    read_utf8 1 ⟨data, pos⟩ = .ok ([b], ⟨data, pos + 1⟩) := by
  have := read_utf8_exact data [b] rest pos 1 (by simpa using h) (by simp)
    (utf8Valid_single b hb)
  simpa using this

lemma read_int8_exact (data xs rest : List Nat) (pos : Nat)
    (h : data.drop pos = xs ++ rest) (hl : xs.length = 1) :
    read_int8 ⟨data, pos⟩ = (convert_bytes_to_int xs, ⟨data, pos + 1⟩) := by
  unfold read_int8
  rw [bufRead_exact data xs rest pos 1 h (by simp [hl]), hl]

lemma read_int16_exact (data xs rest : List Nat) (pos : Nat)
    (h : data.drop pos = xs ++ rest) (hl : xs.length = 2) :
    read_int16 ⟨data, pos⟩ = (convert_bytes_to_int xs, ⟨data, pos + 2⟩) := by
  unfold read_int16
  rw [bufRead_exact data xs rest pos 2 h (by simp [hl]), hl]

lemma read_int32_exact (data xs rest : List Nat) (pos : Nat)
    (h : data.drop pos = xs ++ rest) (hl : xs.length = 4) :
    read_int32 ⟨data, pos⟩ = (convert_bytes_to_int xs, ⟨data, pos + 4⟩) := by
  unfold read_int32
  rw [bufRead_exact data xs rest pos 4 h (by simp [hl]), hl]

lemma read_int64_exact (data xs rest : List Nat) (pos : Nat)
    (h : data.drop pos = xs ++ rest) (hl : xs.length = 8) :
    read_int64 ⟨data, pos⟩ = (convert_bytes_to_int xs, ⟨data, pos + 8⟩) := by
  unfold read_int64
  rw [bufRead_exact data xs rest pos 8 h (by simp [hl]), hl]

lemma read_timestamp_exact (data xs rest : List Nat) (pos : Nat)
    (h : data.drop pos = xs ++ rest) (hl : xs.length = 8)
    (hr : datetimeMinUs ≤ pgEpochUs + convert_bytes_to_int xs ∧
          pgEpochUs + convert_bytes_to_int xs ≤ datetimeMaxUs) :
    read_timestamp ⟨data, pos⟩ =
      .ok (pgEpochUs + convert_bytes_to_int xs, ⟨data, pos + 8⟩) := by
  unfold read_timestamp
  rw [read_int64_exact data xs rest pos h hl]
  unfold convert_pg_ts
  simp [hr.1, hr.2]

/-! ### Claim theorems -/

/-- Claim C1: refuted on the code (code_bug).  The spec demands that every
read primitive fail with `DecodeError(UnexpectedEndOfBuffer)` when fewer
bytes remain than the read requires.  The source instead silently
succeeds: `int.from_bytes` of the short remainder yields a zero-padded or
shortened integer (0 on an empty buffer), `read_utf8 n` returns the
shorter remaining string, and `read_timestamp` of an empty buffer returns
the PostgreSQL epoch instant.  This theorem evaluates each primitive on a
truncated buffer and shows the wrong-but-successful results. -/
theorem truncated_reads_silently_succeed :
    read_int8 ⟨[], 0⟩ = (0, ⟨[], 0⟩) ∧
    read_int16 ⟨[65], 0⟩ = (65, ⟨[65], 1⟩) ∧
    read_int32 ⟨[], 0⟩ = (0, ⟨[], 0⟩) ∧
    read_int64 ⟨[], 0⟩ = (0, ⟨[], 0⟩) ∧
    read_utf8 5 ⟨[65, 66], 0⟩ = .ok ([65, 66], ⟨[65, 66], 2⟩) ∧
    read_timestamp ⟨[], 0⟩ = .ok (946684800000000, ⟨[], 0⟩) := by
  decide

/-- Claim C2: refuted on the code (code_bug).  On a buffer whose remaining
bytes contain no zero terminator, the `while` loop of `read_string` never
terminates: at end of buffer `read(1)` returns `b""`, which differs from
`b"\x00"`, and appends nothing, so the loop makes no progress.  The claim
(and spec section 9) requires the scan to be bounded by the remaining
buffer length and to fail with `DecodeError(UnexpectedEndOfBuffer)`.  The
theorem evaluates `read_string` on the unterminated buffer `b"AB"`
(divergence) and, for contrast, on the terminated buffer `b"A\x00c"`. -/
theorem read_string_unterminated_diverges :
    read_string ⟨[65, 66], 0⟩ = .div ∧
    read_string ⟨[65, 0, 99], 0⟩ = .ok ([65], ⟨[65, 0, 99], 2⟩) := by
  decide

/-- Claim C3: refuted on the code (code_bug).  A TupleData column whose
tag byte is not 'n', 'u' or 't' is supposed to fail with
`DecodeError(InvalidColumnCategory)`; the source `read_tuple_data` loop
has no else branch, so the column is silently skipped.  Evaluating the
TupleData buffer `00 01 78` (one column, tag 'x') yields a successful
result with an empty column list instead of an error. -/
theorem invalid_column_tag_silently_skipped :
    read_tuple_data ⟨[0, 1, 120], 0⟩ =
      .ok (⟨1, []⟩, ⟨[0, 1, 120], 3⟩) := by
  decide

/-- Claim C4: refuted on the code (code_bug).  The TupleData buffer
`00 02 6e 7a` declares `n_columns = 2`, decodes successfully, and returns
only one `ColumnData` entry (the 'z'-tagged column is silently dropped
by the missing else branch), so the decoded sequence length differs from
the declared column count. -/
theorem tuple_data_column_count_mismatch :
    read_tuple_data ⟨[0, 2, 110, 122], 0⟩ =
      .ok (⟨2, [⟨some [110], none, none⟩]⟩, ⟨[0, 2, 110, 122], 4⟩) ∧
    [(⟨some [110], none, none⟩ : ColumnData)].length ≠ (2 : Int).toNat := by
  decide

/-- Claim C5: refuted on the code (code_bug).  `Insert.decode_buffer`
stores the byte following `relation_id` without ever checking that it is
'N'.  The buffer `b"I" + int32(1) + b"X" + int16(0)` therefore decodes
successfully into an Insert message with `new_tuple_byte = "X"` instead
of failing. -/
theorem insert_accepts_non_N_tag :
    InsertMsg.decode [73, 0, 0, 0, 1, 88, 0, 0] =
      .ok ⟨[73], 1, [88], ⟨0, []⟩⟩ := by
  decide

/-- Claim C6: confirmed.  For every Update buffer ('U', int32 relation
id, then the lookahead byte): when the lookahead byte is 'K' (75) or
'O' (79) it is recorded as `optional_tuple_identifier`, one TupleData is
decoded as the old tuple, and the next character must be 'N' (78) -- a
different character makes the decode fail with the
`expectedNewTupleMarker` error carrying the position after that byte;
when the lookahead byte is directly 'N', both
`optional_tuple_identifier` and `old_tuple` are none.  In both
successful paths exactly one further TupleData is decoded as the
mandatory new tuple.  The three conjuncts cover the K/O-success path,
the K/O-then-bad-marker path and the direct-'N' path. -/
theorem update_lookahead_grammar
    (rb1 : List Nat) (b1 : Nat) (tl1 : List Nat) (t1 t2 : TupleData) (p1 : Nat)
    (c1 : Cursor) (rest1 : List Nat)
    (hrb1 : rb1.length = 4) (hb1 : b1 = 75 ∨ b1 = 79)
    (ht1 : read_tuple_data ⟨85 :: rb1 ++ b1 :: tl1, 6⟩ =
      .ok (t1, ⟨85 :: rb1 ++ b1 :: tl1, p1⟩))
    (hn1 : (85 :: rb1 ++ b1 :: tl1).drop p1 = 78 :: rest1)
    (ht2 : read_tuple_data ⟨85 :: rb1 ++ b1 :: tl1, p1 + 1⟩ = .ok (t2, c1))
    (rb2 : List Nat) (b2 : Nat) (tl2 : List Nat) (t3 : TupleData) (q1 : Nat)
    (m : Nat) (rest2 : List Nat)
    (hrb2 : rb2.length = 4) (hb2 : b2 = 75 ∨ b2 = 79)
    (ht3 : read_tuple_data ⟨85 :: rb2 ++ b2 :: tl2, 6⟩ =
      .ok (t3, ⟨85 :: rb2 ++ b2 :: tl2, q1⟩))
    (hm : (85 :: rb2 ++ b2 :: tl2).drop q1 = m :: rest2)
    (hmlt : m < 128) (hmne : m ≠ 78)
    (rb3 tl3 : List Nat) (t4 : TupleData) (c3 : Cursor)
    (hrb3 : rb3.length = 4)
    (ht4 : read_tuple_data ⟨85 :: rb3 ++ 78 :: tl3, 6⟩ = .ok (t4, c3)) :
    Update.decode (85 :: rb1 ++ b1 :: tl1)
      = .ok ⟨[85], convert_bytes_to_int rb1, [b1], some [b1], some t1, [78], t2⟩ ∧
    Update.decode (85 :: rb2 ++ b2 :: tl2)
      = .err (.expectedNewTupleMarker (q1 + 1) [m]) ∧
    Update.decode (85 :: rb3 ++ 78 :: tl3)
      = .ok ⟨[85], convert_bytes_to_int rb3, [78], none, none, [78], t4⟩ := by
  refine ⟨?_, ?_, ?_⟩
  · have hb1lt : b1 < 128 := by rcases hb1 with h | h <;> omega
    have h5 : (85 :: rb1 ++ b1 :: tl1).drop 5 = b1 :: tl1 := by
      rw [show (85 :: rb1 ++ b1 :: tl1) = (85 :: rb1) ++ (b1 :: tl1) from rfl,
        show (5 : Nat) = (85 :: rb1).length from by simp [hrb1]]
      exact List.drop_left _ _
    have h1 : (85 :: rb1 ++ b1 :: tl1).drop 1 = rb1 ++ (b1 :: tl1) := by simp
    unfold Update.decode
    rw [read_utf8_one (85 :: rb1 ++ b1 :: tl1) (rb1 ++ b1 :: tl1) 85 0 (by simp)
      (by omega)]
    simp only [bindR, runMsg, if_true, Nat.reduceAdd, Nat.zero_add]
    rw [read_int32_exact (85 :: rb1 ++ b1 :: tl1) rb1 (b1 :: tl1) 1 h1 hrb1]
    simp only [bindR, Nat.reduceAdd]
    rw [read_utf8_one (85 :: rb1 ++ b1 :: tl1) tl1 b1 5 h5 hb1lt]
    simp only [bindR, Nat.reduceAdd]
    rw [if_pos (show [b1] = [75] ∨ [b1] = [79] by
      rcases hb1 with h | h <;> simp [h])]
    rw [ht1]
    simp only [bindR]
    rw [read_utf8_one (85 :: rb1 ++ b1 :: tl1) rest1 78 p1 hn1 (by omega)]
    simp only [bindR, if_true]
    rw [ht2]
  · have hb2lt : b2 < 128 := by rcases hb2 with h | h <;> omega
    have h5 : (85 :: rb2 ++ b2 :: tl2).drop 5 = b2 :: tl2 := by
      rw [show (85 :: rb2 ++ b2 :: tl2) = (85 :: rb2) ++ (b2 :: tl2) from rfl,
        show (5 : Nat) = (85 :: rb2).length from by simp [hrb2]]
      exact List.drop_left _ _
    have h1 : (85 :: rb2 ++ b2 :: tl2).drop 1 = rb2 ++ (b2 :: tl2) := by simp
    unfold Update.decode
    rw [read_utf8_one (85 :: rb2 ++ b2 :: tl2) (rb2 ++ b2 :: tl2) 85 0 (by simp)
      (by omega)]
    simp only [bindR, runMsg, if_true, Nat.reduceAdd, Nat.zero_add]
    rw [read_int32_exact (85 :: rb2 ++ b2 :: tl2) rb2 (b2 :: tl2) 1 h1 hrb2]
    simp only [bindR, Nat.reduceAdd]
    rw [read_utf8_one (85 :: rb2 ++ b2 :: tl2) tl2 b2 5 h5 hb2lt]
    simp only [bindR, Nat.reduceAdd]
    rw [if_pos (show [b2] = [75] ∨ [b2] = [79] by
      rcases hb2 with h | h <;> simp [h])]
    rw [ht3]
    simp only [bindR]
    rw [read_utf8_one (85 :: rb2 ++ b2 :: tl2) rest2 m q1 hm hmlt]
    simp only [bindR]
    rw [if_neg (show ¬ ([m] = ([78] : List Nat)) by simp [hmne])]
  · have h5 : (85 :: rb3 ++ 78 :: tl3).drop 5 = 78 :: tl3 := by
      rw [show (85 :: rb3 ++ 78 :: tl3) = (85 :: rb3) ++ (78 :: tl3) from rfl,
        show (5 : Nat) = (85 :: rb3).length from by simp [hrb3]]
      exact List.drop_left _ _
    have h1 : (85 :: rb3 ++ 78 :: tl3).drop 1 = rb3 ++ (78 :: tl3) := by simp
    unfold Update.decode
    rw [read_utf8_one (85 :: rb3 ++ 78 :: tl3) (rb3 ++ 78 :: tl3) 85 0 (by simp)
      (by omega)]
    simp only [bindR, runMsg, if_true, Nat.reduceAdd, Nat.zero_add]
    rw [read_int32_exact (85 :: rb3 ++ 78 :: tl3) rb3 (78 :: tl3) 1 h1 hrb3]
    simp only [bindR, Nat.reduceAdd]
    rw [read_utf8_one (85 :: rb3 ++ 78 :: tl3) tl3 78 5 h5 (by omega)]
    simp only [bindR, Nat.reduceAdd]
    rw [if_neg (show ¬ (([78] : List Nat) = [75] ∨ ([78] : List Nat) = [79]) by
      simp)]
    simp only [if_true]
    rw [ht4]

/-- Claim C7: confirmed.  For every Delete buffer ('D', int32 relation
id, tag byte): a tag character other than 'K' (75) or 'O' (79) makes the
decode fail with the `invalidReplicaIdentityOrMessageTag` error, and a
'K' or 'O' tag makes the decoder read exactly one TupleData as the old
tuple of the returned message. -/
theorem delete_tag_validation
    (rbA : List Nat) (bA : Nat) (tlA : List Nat)
    (hrbA : rbA.length = 4) (hbA : bA < 128) (hKA : bA ≠ 75) (hOA : bA ≠ 79)
    (rbB : List Nat) (bB : Nat) (tlB : List Nat) (tB : TupleData) (cB : Cursor)
    (hrbB : rbB.length = 4) (hbB : bB = 75 ∨ bB = 79)
    (htB : read_tuple_data ⟨68 :: rbB ++ bB :: tlB, 6⟩ = .ok (tB, cB)) :
    Delete.decode (68 :: rbA ++ bA :: tlA)
      = .err (.invalidReplicaIdentityOrMessageTag [bA]) ∧
    Delete.decode (68 :: rbB ++ bB :: tlB)
      = .ok ⟨[68], convert_bytes_to_int rbB, [bB], tB⟩ := by
  constructor
  · have h5 : (68 :: rbA ++ bA :: tlA).drop 5 = bA :: tlA := by
      rw [show (68 :: rbA ++ bA :: tlA) = (68 :: rbA) ++ (bA :: tlA) from rfl,
        show (5 : Nat) = (68 :: rbA).length from by simp [hrbA]]
      exact List.drop_left _ _
    have h1 : (68 :: rbA ++ bA :: tlA).drop 1 = rbA ++ (bA :: tlA) := by simp
    unfold Delete.decode
    rw [read_utf8_one (68 :: rbA ++ bA :: tlA) (rbA ++ bA :: tlA) 68 0 (by simp)
      (by omega)]
    simp only [bindR, runMsg, if_true, Nat.reduceAdd, Nat.zero_add]
    rw [read_int32_exact (68 :: rbA ++ bA :: tlA) rbA (bA :: tlA) 1 h1 hrbA]
    simp only [bindR, Nat.reduceAdd]
    rw [read_utf8_one (68 :: rbA ++ bA :: tlA) tlA bA 5 h5 hbA]
    simp only [bindR, Nat.reduceAdd]
    rw [if_neg (show ¬ ([bA] = [75] ∨ [bA] = [79]) by simp [hKA, hOA])]
  · have hbBlt : bB < 128 := by rcases hbB with h | h <;> omega
    have h5 : (68 :: rbB ++ bB :: tlB).drop 5 = bB :: tlB := by
      rw [show (68 :: rbB ++ bB :: tlB) = (68 :: rbB) ++ (bB :: tlB) from rfl,
        show (5 : Nat) = (68 :: rbB).length from by simp [hrbB]]
      exact List.drop_left _ _
    have h1 : (68 :: rbB ++ bB :: tlB).drop 1 = rbB ++ (bB :: tlB) := by simp
    unfold Delete.decode
    rw [read_utf8_one (68 :: rbB ++ bB :: tlB) (rbB ++ bB :: tlB) 68 0 (by simp)
      (by omega)]
    simp only [bindR, runMsg, if_true, Nat.reduceAdd, Nat.zero_add]
    rw [read_int32_exact (68 :: rbB ++ bB :: tlB) rbB (bB :: tlB) 1 h1 hrbB]
    simp only [bindR, Nat.reduceAdd]
    rw [read_utf8_one (68 :: rbB ++ bB :: tlB) tlB bB 5 h5 hbBlt]
    simp only [bindR, Nat.reduceAdd]
    rw [if_pos (show [bB] = [75] ∨ [bB] = [79] by
      rcases hbB with h | h <;> simp [h])]
    rw [htB]

/-- Claim C8: confirmed.  For every valid Begin buffer
('B' followed by at least 24 bytes, decomposed here as
byte 0 = 'B', bytes 1-8 = `l`, bytes 9-16 = `t`, bytes 17-24 = `x`),
the decoded `lsn` and `tx_xid` are the big-endian two-complement
integers of bytes 1-8 and 17-24, and `commit_ts` is the fixed instant
2000-01-01T00:00:00 UTC (`pgEpochUs` in the microseconds-since-Unix-epoch
representation of `datetime`) plus the signed 8-byte microsecond count of
bytes 9-16.  The range hypothesis excludes exactly the buffers on which
the Python `datetime` addition raises `OverflowError`. -/
theorem begin_field_offsets
    (l t x rest : List Nat)
    (hl : l.length = 8) (ht : t.length = 8) (hx : x.length = 8)
    (hr : datetimeMinUs ≤ pgEpochUs + convert_bytes_to_int t ∧
          pgEpochUs + convert_bytes_to_int t ≤ datetimeMaxUs) :
    Begin.decode (66 :: l ++ t ++ x ++ rest)
      = .ok ⟨[66], convert_bytes_to_int l,
             pgEpochUs + convert_bytes_to_int t, convert_bytes_to_int x⟩ := by
  have h1 : (66 :: l ++ t ++ x ++ rest).drop 1 = l ++ (t ++ (x ++ rest)) := by
    simp
  have h9 : (66 :: l ++ t ++ x ++ rest).drop 9 = t ++ (x ++ rest) := by
    have := drop_of_append (66 :: l ++ t ++ x ++ rest) l (t ++ (x ++ rest)) 1 h1
    rw [hl] at this
    simpa using this
  have h17 : (66 :: l ++ t ++ x ++ rest).drop 17 = x ++ rest := by
    have := drop_of_append (66 :: l ++ t ++ x ++ rest) t (x ++ rest) 9 h9
    rw [ht] at this
    simpa using this
  unfold Begin.decode
  rw [read_utf8_one (66 :: l ++ t ++ x ++ rest) (l ++ (t ++ (x ++ rest))) 66 0
    (by simp) (by omega)]
  simp only [bindR, runMsg, if_true, Nat.reduceAdd, Nat.zero_add]
  rw [read_int64_exact (66 :: l ++ t ++ x ++ rest) l (t ++ (x ++ rest)) 1 h1 hl]
  simp only [bindR, Nat.reduceAdd]
  rw [read_timestamp_exact (66 :: l ++ t ++ x ++ rest) t (x ++ rest) 9 h9 ht hr]
  simp only [bindR, Nat.reduceAdd]
  rw [read_int64_exact (66 :: l ++ t ++ x ++ rest) x rest 17 h17 hx]

/-- Claim C9: confirmed against the spec-modelled dispatcher
(`decode_message`; the source has no dispatcher, only the empty `Origin`
and `PgType` placeholder classes).  Every buffer whose leading tag byte
is not one of 'B','C','R','I','U','D','T' (66,67,82,73,85,68,84) --
including Origin 'O' (79) and Type 'Y' (89) -- yields
`DecodeError(UnsupportedMessageType)` rather than being silently
dropped. -/
theorem dispatcher_reports_unsupported_tags
    (b : Nat) (rest : List Nat)
    (h : b ≠ 66 ∧ b ≠ 67 ∧ b ≠ 82 ∧ b ≠ 73 ∧ b ≠ 85 ∧ b ≠ 68 ∧ b ≠ 84) :
    decode_message (b :: rest) = .err (.unsupportedMessageType [b]) := by
  obtain ⟨h1, h2, h3, h4, h5, h6, h7⟩ := h
  unfold decode_message
  simp only [List.head?_cons]

/-- Claim C10: confirmed.  A negative int16 column count in
`read_tuple_data` (first conjunct, for an arbitrary cursor whose next
two bytes decode to a negative signed integer) and a negative int32
relation count in `Truncate` (second conjunct) make the Python `range`
loop run zero times: the decode succeeds, the returned column/relation
list is empty, and the stored count field keeps the negative value. -/
theorem negative_counts_yield_empty_lists
    (d : List Nat) (p : Nat)
    (hneg : convert_bytes_to_int ((d.drop p).take 2) < 0)
    (rb tl : List Nat)
    (hrb : rb.length = 4) (hneg2 : convert_bytes_to_int rb < 0) :
    read_tuple_data ⟨d, p⟩ =
      .ok (⟨convert_bytes_to_int ((d.drop p).take 2), []⟩,
           ⟨d, p + ((d.drop p).take 2).length⟩) ∧
    Truncate.decode (84 :: rb ++ tl) =
      .ok ⟨[84], convert_bytes_to_int rb, convert_bytes_to_int (tl.take 1), []⟩ := by
  constructor
  · have h0 : (convert_bytes_to_int ((d.drop p).take 2)).toNat = 0 :=
      Int.toNat_of_nonpos (le_of_lt hneg)
    unfold read_tuple_data read_int16
    simp [bufRead, h0, readColumns, bindR]
  · have h5 : (84 :: rb ++ tl).drop 5 = tl := by
      rw [show (84 :: rb ++ tl) = (84 :: rb) ++ tl from rfl,
        show (5 : Nat) = (84 :: rb).length from by simp [hrb]]
      exact List.drop_left _ _
    have h1 : (84 :: rb ++ tl).drop 1 = rb ++ tl := by simp
    have h2 : (convert_bytes_to_int rb).toNat = 0 :=
      Int.toNat_of_nonpos (le_of_lt hneg2)
    unfold Truncate.decode
    rw [read_utf8_one (84 :: rb ++ tl) (rb ++ tl) 84 0 (by simp) (by omega)]
    simp only [bindR, runMsg, if_true, Nat.reduceAdd, Nat.zero_add]
    rw [read_int32_exact (84 :: rb ++ tl) rb tl 1 h1 hrb]
    simp only [bindR, Nat.reduceAdd]
    have hd4 : (rb ++ tl).drop 4 = tl := by
      rw [← hrb]
      exact List.drop_left _ _
    unfold read_int8
    simp [bufRead, h2, hd4, readRelationIds, runMsg]

/-- Witness for C6: concrete buffers exercising all three Update paths
(K-old-tuple then 'N', O-old-tuple then a bad marker 'X', and direct
'N'). -/
theorem update_lookahead_grammar_witness :
    Update.decode [85, 0, 0, 0, 1, 75, 0, 0, 78, 0, 0]
      = .ok ⟨[85], 1, [75], some [75], some ⟨0, []⟩, [78], ⟨0, []⟩⟩ ∧
    Update.decode [85, 0, 0, 0, 2, 79, 0, 0, 88, 9]
      = .err (.expectedNewTupleMarker 9 [88]) ∧
    Update.decode [85, 0, 0, 0, 3, 78, 0, 0]
      = .ok ⟨[85], 3, [78], none, none, [78], ⟨0, []⟩⟩ :=
  update_lookahead_grammar [0, 0, 0, 1] 75 [0, 0, 78, 0, 0] ⟨0, []⟩ ⟨0, []⟩ 8
    ⟨[85, 0, 0, 0, 1, 75, 0, 0, 78, 0, 0], 11⟩ [0, 0]
    (by decide) (by decide) (by decide) (by decide) (by decide)
    [0, 0, 0, 2] 79 [0, 0, 88, 9] ⟨0, []⟩ 8 88 [9]
    (by decide) (by decide) (by decide) (by decide) (by decide) (by decide)
    [0, 0, 0, 3] [0, 0] ⟨0, []⟩ ⟨[85, 0, 0, 0, 3, 78, 0, 0], 8⟩
    (by decide) (by decide)

/-- Witness for C7: a Delete buffer with tag 'Z' fails, one with tag 'K'
decodes its old tuple. -/
theorem delete_tag_validation_witness :
    Delete.decode [68, 0, 0, 0, 1, 90, 0, 0]
      = .err (.invalidReplicaIdentityOrMessageTag [90]) ∧
    Delete.decode [68, 0, 0, 0, 2, 75, 0, 0]
      = .ok ⟨[68], 2, [75], ⟨0, []⟩⟩ :=
  delete_tag_validation [0, 0, 0, 1] 90 [0, 0]
    (by decide) (by decide) (by decide) (by decide)
    [0, 0, 0, 2] 75 [0, 0] ⟨0, []⟩ ⟨[68, 0, 0, 0, 2, 75, 0, 0], 8⟩
    (by decide) (by decide) (by decide)

/-- Witness for C8: the Begin buffer with lsn 100, zero microsecond
offset and tx_xid 555 decodes to those fields with `commit_ts` exactly
the PostgreSQL epoch. -/
theorem begin_field_offsets_witness :
    Begin.decode [66, 0, 0, 0, 0, 0, 0, 0, 100, 0, 0, 0, 0, 0, 0, 0, 0,
                  0, 0, 0, 0, 0, 0, 2, 43]
      = .ok ⟨[66], 100, 946684800000000, 555⟩ :=
  begin_field_offsets [0, 0, 0, 0, 0, 0, 0, 100] [0, 0, 0, 0, 0, 0, 0, 0]
    [0, 0, 0, 0, 0, 0, 2, 43] []
    (by decide) (by decide) (by decide) (by decide)

/-- Witness for C9: the Origin tag 'O' (79) and the Type tag 'Y' (89)
both surface as unsupported-message errors from the modelled
dispatcher. -/
theorem dispatcher_reports_unsupported_tags_witness :
    decode_message [79] = .err (.unsupportedMessageType [79]) ∧
    decode_message [89, 1, 2] = .err (.unsupportedMessageType [89]) :=
  ⟨dispatcher_reports_unsupported_tags 79 [] (by decide),
   dispatcher_reports_unsupported_tags 89 [1, 2] (by decide)⟩

/-- Witness for C10: a TupleData buffer with column count -1 and a
Truncate buffer with relation count -1 both succeed with empty lists
while keeping the negative count. -/
theorem negative_counts_yield_empty_lists_witness :
    read_tuple_data ⟨[255, 255, 9, 9], 0⟩ =
      .ok (⟨-1, []⟩, ⟨[255, 255, 9, 9], 2⟩) ∧
    Truncate.decode [84, 255, 255, 255, 255, 7, 1, 2] =
      .ok ⟨[84], -1, 7, []⟩ :=
  negative_counts_yield_empty_lists [255, 255, 9, 9] 0 (by decide)
    [255, 255, 255, 255] [7, 1, 2] (by decide) (by decide)
